import Mathlib

/-!
Verification development for the agent-fleet Router orchestration core.

The definitions below are a shallow embedding of the Python sources:
  * `src/models/router_state.py`  — state/data model (`Task`, `Plan`, `RouterState`)
  * `src/nodes/execute.py`        — executor (`execute_tasks`, `_execute_parallel`,
                                    `_execute_sequential`, `_are_dependencies_met`,
                                    `_invoke_agent`)
  * `src/nodes/analyze.py`        — replan analyser (`analyze_results`)
  * `src/nodes/approval.py`       — approval gate (`await_approval`)
  * `src/nodes/validate.py`       — validator (`validate_request`)
  * `src/nodes/plan.py`           — planner (`generate_plan`)
  * `src/nodes/aggregate.py`      — aggregator (`aggregate_results`)
  * `src/agents/router_agent.py`  — state-machine driver routing functions

External effects (LLM calls, A2A worker RPCs) are modelled as explicit
outcome parameters; Python dicts keyed by task id are modelled as
insertion-ordered association lists.  Timestamps (`created_at`) and the
message-log entries appended by nodes are not modelled: no claim below
depends on them.
-/

namespace AgentFleet

/-- `Task.status` literal values from `src/models/router_state.py`. -/
inductive TaskStatus where
  | pending
  | inProgress
  | completed
  | failed
  deriving DecidableEq, Repr

/-- A task record, after the `Task` TypedDict in `src/models/router_state.py`. -/
structure Task where
  id : String
  description : String
  agent_id : String
  agent_name : String
  status : TaskStatus
  result : Option String
  error : Option String
  dependencies : List String
  rationale : String
  deriving DecidableEq, Repr

/-- An execution plan, after the `Plan` TypedDict in `src/models/router_state.py`.
`execution_strategy` is kept as a raw string exactly as the Python code stores it
(`execute_tasks` compares it with `"parallel"` and treats anything else as
sequential); the `created_at` timestamp is not modelled. -/
structure Plan where
  tasks : List Task
  execution_strategy : String
  analysis : String
  deriving DecidableEq, Repr

/-- A Python `dict[str, Task]`: insertion-ordered association list with unique keys. -/
abbrev TaskDict : Type := List (String × Task)

/-- `key in d` on a Python dict. -/
def dictContains (d : TaskDict) (k : String) : Bool :=
  d.any (fun p => p.1 == k)

/-- `d.get(key)` / `d[key]` on a Python dict. -/
def dictGet (d : TaskDict) (k : String) : Option Task :=
  (List.find? (fun p => p.1 == k) d).map (fun p => p.2)

/-- `d[key] = v` on a Python dict: overwrite in place if the key exists,
otherwise append preserving insertion order. -/
def dictInsert (d : TaskDict) (k : String) (v : Task) : TaskDict :=
  if dictContains d k then
    d.map (fun p => if p.1 == k then (k, v) else p)
  else
    d ++ [(k, v)]

/-- `list(d.values())` on a Python dict. -/
def dictValues (d : TaskDict) : List Task :=
  d.map (fun p => p.2)

/-- The dict comprehension `{task["id"]: task for task in state.get("task_results", [])}`
in `execute_tasks` (src/nodes/execute.py line 64). -/
def buildDict (ts : List Task) : TaskDict :=
  ts.foldl (fun d t => dictInsert d t.id t) []

/-- `_are_dependencies_met` (src/nodes/execute.py lines 201-215): every dependency id
must be present in the completed dict with status `"completed"`. -/
def areDependenciesMet (t : Task) (completed : TaskDict) : Bool :=
  t.dependencies.all (fun dep =>
    match dictGet completed dep with
    | some d => d.status == TaskStatus.completed
    | none => false)

/-- Outcome of the A2A agent invocation inside `_invoke_agent`
(src/nodes/execute.py lines 260-381), abstracting the network environment:
the extracted success text, one of the exception classes the function catches
(`httpx.TimeoutException`, `A2AClientHTTPError`, `A2AClientJSONError`, the
structured A2A error response re-raised as `Exception`, or any other
`Exception`), or an exception escaping the task coroutine altogether
(e.g. `asyncio.CancelledError`, which `except Exception` does not catch). -/
inductive AgentOutcome where
  | success (text : String)
  | timeout
  | httpError (msg : String)
  | jsonError (msg : String)
  | remoteError (msg : String)
  | otherError (msg : String)
  | raised (msg : String)
  deriving DecidableEq, Repr

/-- The per-task environment: which outcome the A2A call for a given task id produces. -/
abbrev Env : Type := String → AgentOutcome

/-- `_invoke_agent` (src/nodes/execute.py lines 218-381).  Returns the updated task,
or `Except.error` when an exception escapes the coroutine (only possible for
non-`Exception` throwables, since every `Exception` class is caught inside). -/
def invokeAgent (task : Task) (outcome : AgentOutcome) : Except String Task :=
  match outcome with
  | AgentOutcome.success text =>
      Except.ok { task with status := TaskStatus.completed, result := some text, error := none }
  | AgentOutcome.timeout =>
      Except.ok { task with status := TaskStatus.failed,
                            error := some "Agent execution timed out (5 minutes)", result := none }
  | AgentOutcome.httpError m =>
      Except.ok { task with status := TaskStatus.failed,
                            error := some ("A2A HTTP error: " ++ m), result := none }
  | AgentOutcome.jsonError m =>
      Except.ok { task with status := TaskStatus.failed,
                            error := some ("A2A JSON error: " ++ m), result := none }
  | AgentOutcome.remoteError m =>
      Except.ok { task with status := TaskStatus.failed,
                            error := some ("A2A agent returned error: " ++ m), result := none }
  | AgentOutcome.otherError m =>
      Except.ok { task with status := TaskStatus.failed, error := some m, result := none }
  | AgentOutcome.raised m =>
      Except.error m

/-- How one gathered coroutine result is turned into a settled task in
`_execute_parallel` (src/nodes/execute.py lines 128-139): a returned task is
kept as is, an exception yields a failed copy with the stringified exception. -/
def settleOne (env : Env) (t : Task) : Task :=
  match invokeAgent t (env t.id) with
  | Except.ok r => r
  | Except.error e => { t with status := TaskStatus.failed, error := some e }

/-- The ready frontier of `_execute_parallel` (src/nodes/execute.py lines 105-109):
tasks not already completed whose dependencies are met. -/
def readyTasks (tasks : List Task) (completed : TaskDict) : List Task :=
  tasks.filter (fun t => !(dictContains completed t.id) && areDependenciesMet t completed)

/-- The result-processing loop of `_execute_parallel` (src/nodes/execute.py
lines 128-139): exceptions append a failed copy to `results` only; returned
tasks are appended to `results` and stored into `completed_tasks`. -/
def parallelStep (env : Env) (acc : List Task × TaskDict) (t : Task) : List Task × TaskDict :=
  match invokeAgent t (env t.id) with
  | Except.ok r => (acc.1 ++ [r], dictInsert acc.2 r.id r)
  | Except.error e =>
      (acc.1 ++ [{ t with status := TaskStatus.failed, error := some e }], acc.2)

/-- `_execute_parallel` (src/nodes/execute.py lines 87-141).  The frontier is
computed once against the incoming completed dict; all frontier tasks are
dispatched and their gathered results processed in order. -/
def executeParallel (env : Env) (tasks : List Task) (completed : TaskDict) :
    List Task × TaskDict :=
  (readyTasks tasks completed).foldl (parallelStep env) ([], completed)

/-- `_execute_sequential` (src/nodes/execute.py lines 144-198).  Tasks already in
the completed dict are skipped; tasks with unmet dependencies are marked failed
with error `"Dependencies not met"` and appended to `results` only (not to the
completed dict); otherwise the agent is invoked and the settled task is stored
into both, also when an exception escapes the coroutine. -/
def executeSequential (env : Env) (tasks : List Task) (completed : TaskDict) :
    List Task × TaskDict :=
  match tasks with
  | [] => ([], completed)
  | t :: rest =>
    if dictContains completed t.id then
      executeSequential env rest completed
    else if !(areDependenciesMet t completed) then
      let ft := { t with status := TaskStatus.failed, error := some "Dependencies not met" }
      let r := executeSequential env rest completed
      (ft :: r.1, r.2)
    else
      match invokeAgent t (env t.id) with
      | Except.ok res =>
        let c := dictInsert completed res.id res
        let r := executeSequential env rest c
        (res :: r.1, r.2)
      | Except.error e =>
        let ft := { t with status := TaskStatus.failed, error := some e }
        let c := dictInsert completed ft.id ft
        let r := executeSequential env rest c
        (ft :: r.1, r.2)

/-- The partial state update returned by `execute_tasks`. -/
structure ExecuteUpdate where
  task_results : List Task
  current_task_index : Nat
  deriving DecidableEq, Repr

/-- `execute_tasks` (src/nodes/execute.py lines 25-84).  With no plan it returns
empty results; otherwise it builds the completed dict from the prior
`task_results`, runs the strategy (the string `"parallel"` selects parallel,
anything else sequential), and returns `list(completed_tasks.values())` —
note: the values of the mutated dict, not the per-invocation `results` list. -/
def executeTasks (env : Env) (planOpt : Option Plan) (priorResults : List Task) :
    ExecuteUpdate :=
  match planOpt with
  | none => { task_results := [], current_task_index := 0 }
  | some plan =>
    let completed := buildDict priorResults
    let afterRun :=
      if plan.execution_strategy == "parallel" then
        executeParallel env plan.tasks completed
      else
        executeSequential env plan.tasks completed
    let allResults := dictValues afterRun.2
    { task_results := allResults, current_task_index := allResults.length }

/-- The raw textual content an LLM call returned, classified by how Python
`json.loads` treats it.  A JSON object wrapped in a Markdown code fence is not
valid JSON, so `json.loads` raises `JSONDecodeError`; the failure message the
decoder would produce is carried abstractly.  `v` is the payload the JSON
object encodes (for the fenced case: the payload that stripping the fence
would have revealed). -/
inductive LLMContent (α : Type) where
  | json (v : α)
  | fencedJson (v : α) (errMsg : String)
  | notJson (errMsg : String)
  deriving DecidableEq, Repr

/-- `json.loads(response.content)` as applied at every call site: no
preprocessing of the raw content, so fenced and non-JSON content both fail. -/
def jsonLoads {α : Type} : LLMContent α → Except String α
  | LLMContent.json v => Except.ok v
  | LLMContent.fencedJson _ e => Except.error e
  | LLMContent.notJson e => Except.error e

/-- An LLM invocation: either it raises (message of the exception), or it
returns raw content. -/
abbrev LLMReply (α : Type) : Type := Except String (LLMContent α)

/-- The JSON object shape the validator prompt requests
(src/nodes/validate.py lines 66-71); `Option` models a missing key,
read with `.get` defaults in the code. -/
structure ValidationJson where
  is_valid : Option Bool
  reasoning : Option String
  deriving DecidableEq, Repr

/-- The partial state update returned by `validate_request`. -/
structure ValidateUpdate where
  is_valid : Bool
  rejection_reason : Option String
  original_request : String
  deriving DecidableEq, Repr

/-- `validate_request` (src/nodes/validate.py lines 15-117).  The returned
`Bool` records whether control reached the LLM invocation: with no message the
function returns before the LLM client is even constructed.  An LLM exception
and a `json.loads` failure are both caught by the same `except Exception`
handler, producing the fail-closed `"Validation error: <str(e)>"` reason. -/
def validateRequest (messages : List String) (llm : LLMReply ValidationJson) :
    ValidateUpdate × Bool :=
  match messages.getLast? with
  | none =>
      ({ is_valid := false, rejection_reason := some "No user message provided",
         original_request := "" }, false)
  | some userRequest =>
      match llm with
      | Except.error e =>
          ({ is_valid := false, rejection_reason := some ("Validation error: " ++ e),
             original_request := userRequest }, true)
      | Except.ok content =>
          match jsonLoads content with
          | Except.error e =>
              ({ is_valid := false, rejection_reason := some ("Validation error: " ++ e),
                 original_request := userRequest }, true)
          | Except.ok v =>
              if v.is_valid.getD false then
                ({ is_valid := true, rejection_reason := none,
                   original_request := userRequest }, true)
              else
                ({ is_valid := false,
                   rejection_reason := some ("Off-topic request: " ++ v.reasoning.getD ""),
                   original_request := userRequest }, true)

/-- The JSON object shape the analyser prompt requests
(src/nodes/analyze.py lines 102-107). -/
structure AnalyzeJson where
  is_sufficient : Option Bool
  reasoning : Option String
  replan_strategy : Option String
  deriving DecidableEq, Repr

/-- The partial state update returned by `analyze_results`.  `replan_count`
is `none` when the returned dict carries no `"replan_count"` key (the state
field is then left unchanged by the LangGraph merge). -/
structure AnalyzeUpdate where
  need_replan : Bool
  replan_reason : Option String
  replan_count : Option Nat
  deriving DecidableEq, Repr

/-- Python `a or b` on an optional string `a`: falls back when `a` is `None`
or the empty string. -/
def pyStrOr (a : Option String) (b : String) : String :=
  match a with
  | some s => if s == "" then b else s
  | none => b

/-- `analyze_results` (src/nodes/analyze.py lines 20-162).  The deterministic
pre-check `replan_count >= max_replans` short-circuits before the LLM is
consulted; LLM errors and parse failures default to no replan; an
insufficient verdict returns `need_replan=True` with the strategy (or the
reasoning) and `replan_count + 1`. -/
def analyzeResults (replan_count max_replans : Nat) (llm : LLMReply AnalyzeJson) :
    AnalyzeUpdate :=
  if max_replans ≤ replan_count then
    { need_replan := false, replan_reason := none, replan_count := none }
  else
    match llm with
    | Except.error _ =>
        { need_replan := false, replan_reason := none, replan_count := none }
    | Except.ok content =>
        match jsonLoads content with
        | Except.error _ =>
            { need_replan := false, replan_reason := none, replan_count := none }
        | Except.ok j =>
            if j.is_sufficient.getD true then
              { need_replan := false, replan_reason := none, replan_count := none }
            else
              { need_replan := true,
                replan_reason := some (pyStrOr j.replan_strategy (j.reasoning.getD "")),
                replan_count := some (replan_count + 1) }

/-- One raw task object inside the planner LLM's JSON answer
(src/nodes/plan.py lines 129-137). -/
structure RawTask where
  description : Option String
  agent_id : Option String
  agent_name : Option String
  dependencies : Option (List String)
  rationale : Option String
  deriving DecidableEq, Repr

/-- The JSON object shape the planner prompt requests
(src/nodes/plan.py lines 125-138). -/
structure PlanJson where
  analysis : Option String
  execution_strategy : Option String
  tasks : Option (List RawTask)
  deriving DecidableEq, Repr

/-- The partial state update returned by `generate_plan`. -/
structure PlanUpdate where
  plan : Plan
  need_replan : Bool
  deriving DecidableEq, Repr

/-- The task-construction loop of `generate_plan` (src/nodes/plan.py lines
177-201): a fresh id is generated for every raw task (`idGen` abstracts
`uuid.uuid4`, applied to the enumeration index), tasks whose `agent_id` is
absent from the registry are skipped, surviving tasks are built with
`status="pending"`, `result=None`, `error=None` and dependencies kept as
produced by the LLM. -/
def buildPlanTasks (idGen : Nat → String) (registry : List String) :
    Nat → List RawTask → List Task
  | _, [] => []
  | idx, raw :: rest =>
    match raw.agent_id with
    | none => buildPlanTasks idGen registry (idx + 1) rest
    | some aid =>
      if registry.contains aid then
        { id := idGen idx,
          description := raw.description.getD "",
          agent_id := aid,
          agent_name := raw.agent_name.getD aid,
          status := TaskStatus.pending,
          result := none,
          error := none,
          dependencies := raw.dependencies.getD [],
          rationale := raw.rationale.getD "" } :: buildPlanTasks idGen registry (idx + 1) rest
      else
        buildPlanTasks idGen registry (idx + 1) rest

/-- `generate_plan` (src/nodes/plan.py lines 24-250).  The registry is modelled
by its key list (the discovered agent ids); the prompt text, which is the only
consumer of the capability details and of the replan context, is not modelled.
An empty registry returns the "No agents available" plan without consulting
the LLM; a `json.JSONDecodeError` returns the fixed "Invalid JSON" empty plan;
any other exception returns an empty plan with the stringified error. -/
def generatePlan (idGen : Nat → String) (registry : List String)
    (llm : LLMReply PlanJson) : PlanUpdate :=
  if registry.isEmpty then
    { plan := { tasks := [], execution_strategy := "sequential",
                analysis := "No agents available to handle this request" },
      need_replan := false }
  else
    match llm with
    | Except.error e =>
        { plan := { tasks := [], execution_strategy := "sequential",
                    analysis := "Planning failed: " ++ e },
          need_replan := false }
    | Except.ok content =>
        match jsonLoads content with
        | Except.error _ =>
            { plan := { tasks := [], execution_strategy := "sequential",
                        analysis := "Planning failed: Invalid JSON response from LLM" },
              need_replan := false }
        | Except.ok pj =>
            { plan := { tasks := buildPlanTasks idGen registry 0 (pj.tasks.getD []),
                        execution_strategy := pj.execution_strategy.getD "sequential",
                        analysis := pj.analysis.getD "" },
              need_replan := false }

/-- `mode` literal values from `src/models/router_state.py`. -/
inductive Mode where
  | auto
  | interactive
  | review
  deriving DecidableEq, Repr

/-- The partial state update returned by `await_approval`.  `need_replan` and
`replan_reason` are `none` when the returned dict carries no such key; the
node never returns a `"replan_count"` key in any branch. -/
structure ApprovalUpdate where
  plan_approved : Bool
  need_replan : Option Bool
  replan_reason : Option String
  deriving DecidableEq, Repr

/-- ASCII whitespace stripped by Python `str.strip()`. -/
def isPyWhitespace (c : Char) : Bool :=
  c == ' ' || c == '\t' || c == '\n' || c == '\r' || c == '\x0b' || c == '\x0c'

/-- Python `s.lower().strip()` as used on the approval answer
(src/nodes/approval.py line 91), over the character list. -/
def pyLowerStrip (s : String) : String :=
  String.mk ((((s.data.map Char.toLower).dropWhile isPyWhitespace).reverse.dropWhile
    isPyWhitespace).reverse)

/-- `await_approval` (src/nodes/approval.py lines 15-126).  `userResponse` is
the value the LangGraph `interrupt` returns on resumption (`none` models the
first, suspending call).  The answer is normalised with
`str(user_response).lower().strip()`. -/
def awaitApproval (mode : Mode) (planOpt : Option Plan) (userResponse : Option String) :
    ApprovalUpdate :=
  match planOpt with
  | none => { plan_approved := false, need_replan := none, replan_reason := none }
  | some _ =>
    match mode with
    | Mode.review => { plan_approved := true, need_replan := none, replan_reason := none }
    | Mode.auto => { plan_approved := true, need_replan := none, replan_reason := none }
    | Mode.interactive =>
      match userResponse with
      | none => { plan_approved := false, need_replan := none, replan_reason := none }
      | some resp =>
        let r := pyLowerStrip resp
        if r == "yes" || r == "y" || r == "approve" || r == "approved" then
          { plan_approved := true, need_replan := none, replan_reason := none }
        else if r == "no" || r == "n" || r == "reject" || r == "rejected" then
          { plan_approved := false, need_replan := some true,
            replan_reason := some "User rejected the plan" }
        else
          { plan_approved := false, need_replan := some true,
            replan_reason := some ("User requested modifications: " ++ resp) }

/-- Number of completed tasks, as counted in `aggregate_results`
(src/nodes/aggregate.py line 55). -/
def completedCount (ts : List Task) : Nat :=
  (ts.filter (fun t => t.status == TaskStatus.completed)).length

/-- Number of failed tasks, as counted in `aggregate_results`
(src/nodes/aggregate.py line 56). -/
def failedCount (ts : List Task) : Nat :=
  (ts.filter (fun t => t.status == TaskStatus.failed)).length

/-- The footer appended to the LLM-generated response when any task failed
(src/nodes/aggregate.py line 118). -/
def successPathFooter (failed total : Nat) : String :=
  "\n\n---\n*Note: " ++ toString failed ++ " of " ++ toString total ++
    " tasks encountered errors. The response above reflects available information.*"

/-- The footer the fallback response always ends with
(src/nodes/aggregate.py line 141). -/
def fallbackFooter (completedC total : Nat) : String :=
  "\n---\n*Response generated with " ++ toString completedC ++ "/" ++ toString total ++
    " successful tasks*"

/-- One task block of the fallback response (src/nodes/aggregate.py lines
134-139); every status other than `"completed"` renders the error line. -/
def fallbackTaskBlock (idx : Nat) (t : Task) : String :=
  "## " ++ toString idx ++ ". " ++ t.description ++ "\n\n" ++
    (if t.status == TaskStatus.completed then t.result.getD "No result" ++ "\n\n"
     else "*This task failed: " ++ t.error.getD "Unknown error" ++ "*\n\n")

/-- The deterministic fallback concatenation built when the aggregation LLM
call fails (src/nodes/aggregate.py lines 131-139), without its footer. -/
def buildFallback (original_request : String) (ts : List Task) : String :=
  ts.enum.foldl (fun acc p => acc ++ fallbackTaskBlock (p.1 + 1) p.2)
    ("# Results for: " ++ original_request ++ "\n\n")

/-- `aggregate_results` (src/nodes/aggregate.py lines 18-148), reduced to the
produced `final_response` string.  On LLM success the footer is appended iff
some task failed; on any exception the deterministic fallback plus its
always-present footer is returned. -/
def aggregateResults (original_request : String) (ts : List Task)
    (llm : Except String String) : String :=
  match llm with
  | Except.ok text =>
      if 0 < failedCount ts then text ++ successPathFooter (failedCount ts) ts.length
      else text
  | Except.error _ =>
      buildFallback original_request ts ++ fallbackFooter (completedCount ts) ts.length

/-- The Router state fields the driver's routing functions and the claims
read, after `RouterState` in `src/models/router_state.py`. -/
structure RouterState where
  original_request : String
  is_valid : Bool
  rejection_reason : Option String
  plan : Option Plan
  plan_approved : Bool
  need_replan : Bool
  replan_reason : Option String
  task_results : List Task
  final_response : Option String
  mode : Mode
  max_replans : Nat
  replan_count : Nat
  deriving Repr

/-- `route_after_validation` (src/agents/router_agent.py lines 66-71). -/
def routeAfterValidation (s : RouterState) : String :=
  if s.is_valid then "plan" else "reject"

/-- `route_after_planning` (src/agents/router_agent.py lines 73-79). -/
def routeAfterPlanning (s : RouterState) : String :=
  if s.mode == Mode.auto then "execute" else "approval"

/-- `route_after_approval` (src/agents/router_agent.py lines 81-87). -/
def routeAfterApproval (s : RouterState) : String :=
  if s.plan_approved then "execute" else "plan"

/-- `route_after_analysis` (src/agents/router_agent.py lines 89-94): it reads
only `need_replan`. -/
def routeAfterAnalysis (s : RouterState) : String :=
  if s.need_replan then "plan" else "aggregate"

/-- LangGraph merge of the analyser's partial update into the state: keys
present in the returned dict overwrite the state field, the absent
`replan_count` key leaves the counter unchanged. -/
def applyAnalyze (s : RouterState) (u : AnalyzeUpdate) : RouterState :=
  { s with need_replan := u.need_replan,
           replan_reason := u.replan_reason,
           replan_count := u.replan_count.getD s.replan_count }

/-- LangGraph merge of the approval gate's partial update into the state. -/
def applyApproval (s : RouterState) (u : ApprovalUpdate) : RouterState :=
  { s with plan_approved := u.plan_approved,
           need_replan := u.need_replan.getD s.need_replan,
           replan_reason :=
             match u.replan_reason with
             | some r => some r
             | none => s.replan_reason }

/-- LangGraph merge of the validator's partial update into the state. -/
def applyValidate (s : RouterState) (u : ValidateUpdate) : RouterState :=
  { s with is_valid := u.is_valid,
           rejection_reason := u.rejection_reason,
           original_request := u.original_request }

/-- The data-model invariant of spec section 3:
`task.result ≠ null ⇔ task.status = completed` and
`task.error ≠ null ⇔ task.status = failed`, as a boolean check. -/
def taskInvB (t : Task) : Bool :=
  (t.result.isSome == (t.status == TaskStatus.completed)) &&
  (t.error.isSome == (t.status == TaskStatus.failed))

/-- Whether `pre` is a prefix of `hay`, on the character lists. -/
def strStarts (hay pre : String) : Bool :=
  pre.toList.isPrefixOf hay.toList

/-- Whether `needle` occurs as a contiguous substring of `hay`. -/
def strContainsSub (hay needle : String) : Bool :=
  hay.toList.tails.any (fun suf => needle.toList.isPrefixOf suf)

lemma invokeAgent_ok_inv (t : Task) (o : AgentOutcome) (r : Task)
    (h : invokeAgent t o = Except.ok r) : taskInvB r = true := by
  cases o <;> simp only [invokeAgent, Except.ok.injEq] at h
  case raised m => exact absurd h (by simp)
  all_goals subst h
  all_goals simp [taskInvB]

lemma mem_dictInsert {d : TaskDict} {k : String} {v : Task} {p : String × Task}
    (h : p ∈ dictInsert d k v) : p ∈ d ∨ p = (k, v) := by
  unfold dictInsert at h
  split at h
  · rcases List.mem_map.mp h with ⟨q, hq, hfq⟩
    by_cases hk : q.1 == k
    · right
      rw [if_pos hk] at hfq
      exact hfq.symm
    · left
      rw [if_neg hk] at hfq
      exact hfq ▸ hq
  · rcases List.mem_append.mp h with h1 | h2
    · exact Or.inl h1
    · exact Or.inr (List.mem_singleton.mp h2)

lemma dictInsert_all_inv {d : TaskDict} {k : String} {v : Task}
    (hd : ∀ p ∈ d, taskInvB p.2 = true) (hv : taskInvB v = true) :
    ∀ p ∈ dictInsert d k v, taskInvB p.2 = true := by
  intro p hp
  rcases mem_dictInsert hp with h | h
  · exact hd p h
  · rw [h]
    exact hv

lemma buildDict_go_inv (ts : List Task) (d : TaskDict)
    (hd : ∀ p ∈ d, taskInvB p.2 = true) (h : ∀ u ∈ ts, taskInvB u = true) :
    ∀ p ∈ ts.foldl (fun d t => dictInsert d t.id t) d, taskInvB p.2 = true := by
  induction ts generalizing d with
  | nil => exact hd
  | cons u rest ih =>
    exact ih (dictInsert d u.id u)
      (dictInsert_all_inv hd (h u (List.mem_cons_self u rest)))
      (fun w hw => h w (List.mem_cons_of_mem u hw))

lemma buildDict_inv (ts : List Task) (h : ∀ u ∈ ts, taskInvB u = true) :
    ∀ p ∈ buildDict ts, taskInvB p.2 = true :=
  buildDict_go_inv ts [] (by intro p hp; exact absurd hp (List.not_mem_nil p)) h

lemma failed_copy_inv {t : Task} (hres : t.result = none) (e : String) :
    taskInvB { t with status := TaskStatus.failed, error := some e } = true := by
  simp [taskInvB, hres]

lemma executeSequential_dict_inv (env : Env) (tasks : List Task) (completed : TaskDict)
    (hc : ∀ p ∈ completed, taskInvB p.2 = true)
    (hf : ∀ u ∈ tasks, u.result = none) :
    ∀ p ∈ (executeSequential env tasks completed).2, taskInvB p.2 = true := by
  induction tasks generalizing completed with
  | nil => exact hc
  | cons t rest ih =>
    have hrest : ∀ u ∈ rest, u.result = none :=
      fun u hu => hf u (List.mem_cons_of_mem t hu)
    have ht : t.result = none := hf t (List.mem_cons_self t rest)
    unfold executeSequential
    split
    · exact ih completed hc hrest
    · split
      · exact ih completed hc hrest
      · cases hinv : invokeAgent t (env t.id) with
        | ok res =>
          exact ih (dictInsert completed res.id res)
            (dictInsert_all_inv hc (invokeAgent_ok_inv t (env t.id) res hinv)) hrest
        | error e =>
          exact ih _ (dictInsert_all_inv hc (failed_copy_inv ht e)) hrest

lemma executeParallel_fold_dict_inv (env : Env) (l : List Task) (acc : List Task × TaskDict)
    (hc : ∀ p ∈ acc.2, taskInvB p.2 = true) :
    ∀ p ∈ (l.foldl (parallelStep env) acc).2, taskInvB p.2 = true := by
  induction l generalizing acc with
  | nil => exact hc
  | cons t rest ih =>
    show ∀ p ∈ (rest.foldl (parallelStep env) (parallelStep env acc t)).2, taskInvB p.2 = true
    refine ih (parallelStep env acc t) ?_
    unfold parallelStep
    cases hinv : invokeAgent t (env t.id) with
    | ok r =>
      exact dictInsert_all_inv hc (invokeAgent_ok_inv t (env t.id) r hinv)
    | error e =>
      exact hc

lemma executeParallel_dict_inv (env : Env) (tasks : List Task) (completed : TaskDict)
    (hc : ∀ p ∈ completed, taskInvB p.2 = true) :
    ∀ p ∈ (executeParallel env tasks completed).2, taskInvB p.2 = true :=
  executeParallel_fold_dict_inv env (readyTasks tasks completed) ([], completed) hc

lemma parallelStep_fst (env : Env) (acc : List Task × TaskDict) (t : Task) :
    (parallelStep env acc t).1 = acc.1 ++ [settleOne env t] := by
  unfold parallelStep settleOne
  cases hinv : invokeAgent t (env t.id) <;> simp

lemma foldl_parallelStep_fst (env : Env) (l : List Task) (rs : List Task) (c : TaskDict) :
    (l.foldl (parallelStep env) (rs, c)).1 = rs ++ l.map (settleOne env) := by
  induction l generalizing rs c with
  | nil => simp
  | cons t rest ih =>
    rw [List.foldl_cons]
    rcases hstep : parallelStep env (rs, c) t with ⟨a, d⟩
    have ha : a = rs ++ [settleOne env t] := by
      have h1 := parallelStep_fst env (rs, c) t
      rw [hstep] at h1
      exact h1
    rw [ih a d, ha, List.map_cons]
    simp

/-- Concrete two-task sequential plan A then B, B depending on A
(spec section 8, scenario 4). -/
def taskA : Task :=
  { id := "task_a", description := "Run the build", agent_id := "agent_one",
    agent_name := "Agent One", status := TaskStatus.pending, result := none,
    error := none, dependencies := [], rationale := "build must run first" }

def taskB : Task :=
  { id := "task_b", description := "Deploy the build", agent_id := "agent_one",
    agent_name := "Agent One", status := TaskStatus.pending, result := none,
    error := none, dependencies := ["task_a"], rationale := "needs the build" }

def planC1 : Plan :=
  { tasks := [taskA, taskB], execution_strategy := "sequential",
    analysis := "build then deploy" }

/-- Environment in which every agent call fails with a transport error. -/
def envC1 : Env := fun _ => AgentOutcome.httpError "connection refused"

/-- How task A settles under `envC1`. -/
def taskAFailed : Task :=
  { taskA with status := TaskStatus.failed,
               error := some "A2A HTTP error: connection refused", result := none }

/-- Claim C1 (status: code_bug).  On the two-task sequential plan A then B
where A's agent call fails with a transport error, `execute_tasks` returns a
`task_results` list containing only the failed A: the task B, although settled
as failed with error `"Dependencies not met"` inside `_execute_sequential`
(third conjunct), is appended to the per-invocation `results` list but never
stored into `completed_tasks`, and `execute_tasks` returns
`list(completed_tasks.values())` — so B is dropped from the output, the
Aggregator would see 1 task, and the claimed "both A and B appear, footer
2 of 2 failed" behaviour does not hold on the code. -/
theorem executor_drops_dependency_failed_task :
    (executeTasks envC1 (some planC1) []).task_results = [taskAFailed]
    ∧ ((executeTasks envC1 (some planC1) []).task_results.any
        (fun t => t.id == "task_b")) = false
    ∧ (executeSequential envC1 planC1.tasks (buildDict [])).1
      = [taskAFailed,
         { taskB with status := TaskStatus.failed, error := some "Dependencies not met" }] := by
  refine ⟨rfl, rfl, rfl⟩

/-- Claim C2 (status: confirmed).  Whenever `replan_count ≥ max_replans`
(every such count is `max_replans + k`), `analyze_results` reports
`need_replan = false` regardless of the LLM reply, and with `max_replans = 0`
it never triggers a replan for any count and any LLM reply. -/
theorem analyzer_replan_bound_hard_stop (mr k rc : Nat) (llm llm2 : LLMReply AnalyzeJson) :
    (analyzeResults (mr + k) mr llm).need_replan = false
    ∧ (analyzeResults rc 0 llm2).need_replan = false := by
  constructor
  · unfold analyzeResults
    rw [if_pos (Nat.le_add_right mr k)]
  · unfold analyzeResults
    rw [if_pos (Nat.zero_le rc)]

/-- A state whose replan budget is exhausted but whose analysis output
(as if from a misbehaving Analyser) still demands a replan. -/
def stateC3 : RouterState :=
  { original_request := "Fix the build", is_valid := true, rejection_reason := none,
    plan := some planC1, plan_approved := true, need_replan := true,
    replan_reason := some "still failing", task_results := [],
    final_response := none, mode := Mode.auto, max_replans := 2, replan_count := 5 }

/-- Claim C3 counterexample.  `route_after_analysis` reads only `need_replan`:
on a state with `replan_count = 5 ≥ 2 = max_replans` whose `need_replan` flag
is true, the driver still routes to `plan` — there is no redundant assertion
of the replan bound anywhere in the driver. -/
theorem driver_routes_to_plan_despite_exhausted_budget :
    stateC3.max_replans ≤ stateC3.replan_count
    ∧ stateC3.need_replan = true
    ∧ routeAfterAnalysis stateC3 = "plan" := by
  refine ⟨by decide, rfl, rfl⟩

/-- Claim C3 as amended (status: corrected).  The driver contains no
independent replan-bound assertion: `route_after_analysis` depends only on
`need_replan`.  The bound is enforced solely by the Analyser's deterministic
pre-check, so with the Analyser as implemented the transition after analysis
still always goes to `aggregate` once `replan_count ≥ max_replans`, for every
state and every LLM reply. -/
theorem replan_bound_enforced_only_through_analyzer (s : RouterState) (mr k : Nat)
    (llm : LLMReply AnalyzeJson) :
    routeAfterAnalysis (applyAnalyze s (analyzeResults (mr + k) mr llm)) = "aggregate" := by
  unfold analyzeResults
  rw [if_pos (Nat.le_add_right mr k)]
  rfl

/-- A state suspended at the approval gate in interactive mode. -/
def stateC4 : RouterState :=
  { original_request := "Fix the build", is_valid := true, rejection_reason := none,
    plan := some planC1, plan_approved := false, need_replan := false,
    replan_reason := none, task_results := [], final_response := none,
    mode := Mode.interactive, max_replans := 2, replan_count := 0 }

/-- Claim C4 counterexample.  Resuming the suspended interactive run with
answer `"no"` sets `replan_reason = "User rejected the plan"` (capital U), not
the claimed `"user rejected the plan"`, and leaves `replan_count` at 0: the
approval node returns no `replan_count` key and no other node on this path
increments the counter, so it does not advance to 1. -/
theorem approval_reject_claim_fails :
    (awaitApproval Mode.interactive (some planC1) (some "no")).replan_reason
      ≠ some "user rejected the plan"
    ∧ (applyApproval stateC4
        (awaitApproval Mode.interactive (some planC1) (some "no"))).replan_count = 0 := by
  refine ⟨by decide, rfl⟩

/-- Claim C4 as amended (status: corrected).  In interactive mode, each of the
reject answers `no`, `n`, `reject`, `rejected` makes the Approval Gate return
`plan_approved = false`, `need_replan = true` and
`replan_reason = "User rejected the plan"`; the driver then routes back to
`plan`; and `replan_count` is left unchanged by this path (the approval node
never returns a `replan_count` key), so it stays 0 rather than advancing
to 1 — only the Analyser increments the counter. -/
theorem approval_reject_behaviour (s : RouterState) (p : Plan) :
    awaitApproval Mode.interactive (some p) (some "no")
      = { plan_approved := false, need_replan := some true,
          replan_reason := some "User rejected the plan" }
    ∧ awaitApproval Mode.interactive (some p) (some "n")
      = { plan_approved := false, need_replan := some true,
          replan_reason := some "User rejected the plan" }
    ∧ awaitApproval Mode.interactive (some p) (some "reject")
      = { plan_approved := false, need_replan := some true,
          replan_reason := some "User rejected the plan" }
    ∧ awaitApproval Mode.interactive (some p) (some "rejected")
      = { plan_approved := false, need_replan := some true,
          replan_reason := some "User rejected the plan" }
    ∧ (applyApproval s (awaitApproval Mode.interactive (some p) (some "no"))).replan_count
      = s.replan_count
    ∧ routeAfterApproval (applyApproval s (awaitApproval Mode.interactive (some p) (some "no")))
      = "plan" := by
  refine ⟨rfl, rfl, rfl, rfl, rfl, rfl⟩

/-- Claim C10 (status: confirmed).  With an empty (or absent) messages
sequence, `validate_request` returns `is_valid = false`,
`rejection_reason = "No user message provided"` and an empty
`original_request`, for every possible LLM behaviour; the second component
`false` records that control never reaches the LLM invocation. -/
theorem validator_no_message_short_circuit (llm : LLMReply ValidationJson) :
    validateRequest [] llm
      = ({ is_valid := false, rejection_reason := some "No user message provided",
           original_request := "" }, false) := rfl

/-- A well-formed validation verdict (`is_valid = true`) wrapped inside a
Markdown code fence, as an LLM might return it. -/
def fencedVerdict : LLMContent ValidationJson :=
  LLMContent.fencedJson { is_valid := some true, reasoning := some "on-topic request" }
    "Expecting value: line 1 column 1 (char 0)"

/-- Claim C5 counterexample.  The validator applies `json.loads` directly to
the raw LLM content with no fence stripping: an output consisting of a
well-formed JSON object with `is_valid = true` wrapped in a fenced code block
is NOT parsed successfully — the validator returns its parse-failure default
(`is_valid = false`, fail-closed "Validation error" reason) instead of the
verdict encoded in the JSON. -/
theorem fenced_json_rejected_by_validator :
    (validateRequest ["Fix the Jenkins build"] (Except.ok fencedVerdict)).1
      = { is_valid := false,
          rejection_reason :=
            some "Validation error: Expecting value: line 1 column 1 (char 0)",
          original_request := "Fix the Jenkins build" } := rfl

/-- Claim C5 as amended (status: corrected).  None of the JSON-expecting LLM
call sites (validator, planner, analyser) strips code fences: each applies
`json.loads` to the raw content, so a fenced JSON object fails to parse and
each site returns its parse-failure default — the validator fails closed with
a "Validation error" reason, the analyser reports `need_replan = false`, and
the planner (with a non-empty registry) returns the empty
"Planning failed: Invalid JSON response from LLM" plan. -/
theorem no_code_fence_stripping
    (m e1 e2 e3 : String) (ms : List String) (v : ValidationJson)
    (rc mr : Nat) (aj : AnalyzeJson)
    (idGen : Nat → String) (r0 : String) (rs : List String) (pj : PlanJson) :
    (validateRequest (ms ++ [m]) (Except.ok (LLMContent.fencedJson v e1))).1
      = { is_valid := false, rejection_reason := some ("Validation error: " ++ e1),
          original_request := m }
    ∧ (analyzeResults rc mr (Except.ok (LLMContent.fencedJson aj e2))).need_replan = false
    ∧ (generatePlan idGen (r0 :: rs) (Except.ok (LLMContent.fencedJson pj e3))).plan
      = { tasks := [], execution_strategy := "sequential",
          analysis := "Planning failed: Invalid JSON response from LLM" } := by
  refine ⟨?_, ?_, ?_⟩
  · unfold validateRequest
    rw [List.getLast?_concat]
    rfl
  · by_cases h : mr ≤ rc <;> simp [analyzeResults, h, jsonLoads]
  · simp [generatePlan, jsonLoads]

/-- Claim C6 counterexample.  At an input where the validator's LLM call
raises, the produced reason is `"Validation error: boom"`, which does not have
the claimed lower-case form `"validation error: <detail>"`. -/
theorem validator_reason_not_lowercase :
    (validateRequest ["Fix the Jenkins build"] (Except.error "boom")).1.rejection_reason
      = some "Validation error: boom"
    ∧ strStarts "Validation error: boom" "validation error:" = false := by
  refine ⟨rfl, by decide⟩

/-- Claim C6 as amended (status: corrected).  For every validator invocation
with a non-empty message list in which the LLM call raises, or in which its
output fails to parse as JSON, the validator returns `is_valid = false` with
reason `"Validation error: <detail>"` (capital V — fail-closed), and the
driver then routes the run to the rejection path. -/
theorem validator_fail_closed (m e pe : String) (ms : List String) (s : RouterState) :
    (validateRequest (ms ++ [m]) (Except.error e)).1
      = { is_valid := false, rejection_reason := some ("Validation error: " ++ e),
          original_request := m }
    ∧ (validateRequest (ms ++ [m]) (Except.ok (LLMContent.notJson pe))).1
      = { is_valid := false, rejection_reason := some ("Validation error: " ++ pe),
          original_request := m }
    ∧ routeAfterValidation
        (applyValidate s (validateRequest (ms ++ [m]) (Except.error e)).1) = "reject" := by
  refine ⟨?_, ?_, ?_⟩ <;> (unfold validateRequest; rw [List.getLast?_concat]) <;> rfl

lemma buildPlanTasks_inv (idGen : Nat → String) (registry : List String) :
    ∀ (idx : Nat) (raws : List RawTask),
      ∀ q ∈ buildPlanTasks idGen registry idx raws, taskInvB q = true := by
  intro idx raws
  induction raws generalizing idx with
  | nil =>
    intro q hq
    exact absurd hq (List.not_mem_nil q)
  | cons raw rest ih =>
    intro q hq
    simp only [buildPlanTasks] at hq
    cases hagent : raw.agent_id with
    | none =>
      simp only [hagent] at hq
      exact ih (idx + 1) q hq
    | some aid =>
      simp only [hagent] at hq
      by_cases hreg : registry.contains aid
      · rw [if_pos hreg] at hq
        rcases List.mem_cons.mp hq with h | h
        · rw [h]
          rfl
        · exact ih (idx + 1) q h
      · rw [if_neg hreg] at hq
        exact ih (idx + 1) q hq

lemma executeTasks_values_inv (env : Env) (plan : Plan) (prior : List Task)
    (hprior : ∀ u ∈ prior, taskInvB u = true)
    (hfresh : ∀ q ∈ plan.tasks, q.result = none) :
    ∀ q ∈ (executeTasks env (some plan) prior).task_results, taskInvB q = true := by
  intro q hq
  have hdict : ∀ p ∈ buildDict prior, taskInvB p.2 = true := buildDict_inv prior hprior
  simp only [executeTasks] at hq
  by_cases hs : plan.execution_strategy == "parallel"
  · rw [if_pos hs] at hq
    rcases List.mem_map.mp hq with ⟨p, hp, hpq⟩
    rw [← hpq]
    exact executeParallel_dict_inv env plan.tasks (buildDict prior) hdict p hp
  · rw [if_neg hs] at hq
    rcases List.mem_map.mp hq with ⟨p, hp, hpq⟩
    rw [← hpq]
    exact executeSequential_dict_inv env plan.tasks (buildDict prior) hdict hfresh p hp

/-- Claim C7 (status: confirmed).  Every task value produced by the core
operations satisfies the data-model invariant
`result ≠ null ⇔ status = completed` and `error ≠ null ⇔ status = failed`:
tasks built by the planner's construction loop, every task `_invoke_agent`
returns (for any outcome of the agent call), and every task in the
`task_results` output of `execute_tasks` under either strategy, given prior
results satisfying the invariant and freshly planned input tasks. -/
theorem task_result_error_invariant
    (idGen : Nat → String) (registry : List String) (idx : Nat) (raws : List RawTask)
    (t : Task) (o : AgentOutcome) (env : Env) (plan : Plan) (prior : List Task)
    (hprior : prior.all taskInvB = true)
    (hfresh : plan.tasks.all (fun q => q.result.isNone) = true) :
    (buildPlanTasks idGen registry idx raws).all taskInvB = true
    ∧ (∀ r : Task, invokeAgent t o = Except.ok r → taskInvB r = true)
    ∧ (executeTasks env (some plan) prior).task_results.all taskInvB = true := by
  refine ⟨?_, ?_, ?_⟩
  · rw [List.all_eq_true]
    exact buildPlanTasks_inv idGen registry idx raws
  · exact invokeAgent_ok_inv t o
  · rw [List.all_eq_true]
    refine executeTasks_values_inv env plan prior ?_ ?_
    · exact List.all_eq_true.mp hprior
    · intro u hu
      exact Option.isNone_iff_eq_none.mp (List.all_eq_true.mp hfresh u hu)

/-- A fresh two-task parallel plan and a prior completed result. -/
def tC7a : Task :=
  { id := "c7_a", description := "Lint the code", agent_id := "agent_one",
    agent_name := "Agent One", status := TaskStatus.pending, result := none,
    error := none, dependencies := [], rationale := "lint" }

def tC7b : Task :=
  { id := "c7_b", description := "Review findings", agent_id := "agent_two",
    agent_name := "Agent Two", status := TaskStatus.pending, result := none,
    error := none, dependencies := ["c7_a"], rationale := "review" }

def planC7 : Plan :=
  { tasks := [tC7a, tC7b], execution_strategy := "parallel", analysis := "lint then review" }

def priorC7 : List Task :=
  [{ id := "c7_old", description := "Earlier scan", agent_id := "agent_one",
     agent_name := "Agent One", status := TaskStatus.completed,
     result := some "scan done", error := none, dependencies := [], rationale := "old" }]

def envC7 : Env := fun _ => AgentOutcome.success "ok"

/-- Witness for claim C7 at a concrete plan, prior results and environment. -/
theorem task_result_error_invariant_witness :
    (executeTasks envC7 (some planC7) priorC7).task_results.all taskInvB = true :=
  (task_result_error_invariant (fun _ => "tid") [] 0 [] tC7a AgentOutcome.timeout
    envC7 planC7 priorC7 (by decide) (by decide)).2.2

/-- Claim C8 (status: confirmed).  No single task failure propagates upward:
(1) the parallel executor's result list has exactly one settled entry per
frontier task, each entry a function of that task and its own agent outcome
alone, so no outcome of one task can change or remove a sibling's entry;
(2) every settled entry has status completed or failed; (3) an unexpected
exception escaping a task coroutine settles that task as failed with the
stringified exception as its error; (4) under the sequential strategy, after
a dispatched task settles (even as failed), the remaining siblings are still
processed, so execute returns normally with every dispatched task settled. -/
theorem failure_isolation
    (env : Env) (tasks rest : List Task) (completed : TaskDict) (t : Task) (m : String)
    (hnew : dictContains completed t.id = false)
    (hdeps : areDependenciesMet t completed = true) :
    (executeParallel env tasks completed).1
      = (readyTasks tasks completed).map (settleOne env)
    ∧ ((settleOne env t).status = TaskStatus.completed
        ∨ (settleOne env t).status = TaskStatus.failed)
    ∧ settleOne (fun _ => AgentOutcome.raised m) t
      = { t with status := TaskStatus.failed, error := some m }
    ∧ (executeSequential env (t :: rest) completed).1
      = settleOne env t
          :: (executeSequential env rest (dictInsert completed t.id (settleOne env t))).1 := by
  refine ⟨?_, ?_, ?_, ?_⟩
  · unfold executeParallel
    rw [foldl_parallelStep_fst]
    simp
  · rcases henv : env t.id <;> simp [settleOne, invokeAgent, henv]
  · rfl
  · rcases henv : env t.id <;>
      simp [executeSequential, settleOne, invokeAgent, hnew, hdeps, henv]

def tC8a : Task :=
  { id := "c8_a", description := "Fetch metrics", agent_id := "agent_one",
    agent_name := "Agent One", status := TaskStatus.pending, result := none,
    error := none, dependencies := [], rationale := "metrics" }

def tC8b : Task :=
  { id := "c8_b", description := "Summarise metrics", agent_id := "agent_two",
    agent_name := "Agent Two", status := TaskStatus.pending, result := none,
    error := none, dependencies := [], rationale := "summary" }

/-- Environment where the first task's coroutine raises and the sibling
succeeds. -/
def envC8 : Env := fun i =>
  if i == "c8_a" then AgentOutcome.raised "boom" else AgentOutcome.success "done"

/-- Witness for claim C8: two independent siblings, the first raising an
unexpected exception, the second succeeding. -/
theorem failure_isolation_witness :
    ((executeParallel envC8 [tC8a, tC8b] []).1
        = (readyTasks [tC8a, tC8b] []).map (settleOne envC8))
    ∧ ((settleOne envC8 tC8a).status = TaskStatus.completed
        ∨ (settleOne envC8 tC8a).status = TaskStatus.failed)
    ∧ (settleOne (fun _ => AgentOutcome.raised "boom") tC8a
        = { tC8a with status := TaskStatus.failed, error := some "boom" })
    ∧ ((executeSequential envC8 (tC8a :: [tC8b]) []).1
        = settleOne envC8 tC8a
            :: (executeSequential envC8 [tC8b] (dictInsert [] tC8a.id (settleOne envC8 tC8a))).1) :=
  failure_isolation envC8 [tC8a, tC8b] [tC8b] [] tC8a "boom" (by decide) (by decide)

def tC9a : Task :=
  { id := "c9_a", description := "Check build logs", agent_id := "agent_one",
    agent_name := "Agent One", status := TaskStatus.completed,
    result := some "Logs clean", error := none, dependencies := [], rationale := "logs" }

def tC9b : Task :=
  { id := "c9_b", description := "Scan code quality", agent_id := "agent_two",
    agent_name := "Agent Two", status := TaskStatus.completed,
    result := some "No smells", error := none, dependencies := [], rationale := "scan" }

def tC9c : Task :=
  { id := "c9_c", description := "Deploy fixes", agent_id := "agent_three",
    agent_name := "Agent Three", status := TaskStatus.failed, result := none,
    error := some "Agent unavailable", dependencies := [], rationale := "deploy" }

/-- Two completed tasks and one failed task. -/
def tsC9 : List Task := [tC9a, tC9b, tC9c]

/-- Claim C9 counterexample.  With one failed task out of three and a failing
aggregation LLM, the produced artifact is the fallback whose (always-present)
footer states the successful/total counts `2/3`; the failed count `1` does not
occur anywhere in that footer, so the fallback artifact does not include a
footer stating the failed/total task counts. -/
theorem fallback_footer_omits_failed_count :
    failedCount tsC9 = 1
    ∧ aggregateResults "Check my build" tsC9 (Except.error "LLM unavailable")
      = buildFallback "Check my build" tsC9 ++ fallbackFooter 2 3
    ∧ strContainsSub (fallbackFooter 2 3) "1" = false := by
  refine ⟨rfl, rfl, by decide⟩

/-- Claim C9 as amended (status: corrected).  When the aggregation LLM call
fails, the final response is the deterministic fallback concatenation of each
task's description with its result or error, always ending with a footer
stating the successful/total counts; the failed/total footer is produced on
the LLM-success path whenever at least one task failed. -/
theorem aggregator_fallback_and_footers (req e llmText : String) (ts : List Task)
    (hfail : 0 < failedCount ts) :
    aggregateResults req ts (Except.error e)
      = buildFallback req ts ++ fallbackFooter (completedCount ts) ts.length
    ∧ aggregateResults req ts (Except.ok llmText)
      = llmText ++ successPathFooter (failedCount ts) ts.length := by
  constructor
  · rfl
  · show (if 0 < failedCount ts then llmText ++ successPathFooter (failedCount ts) ts.length
        else llmText) = llmText ++ successPathFooter (failedCount ts) ts.length
    rw [if_pos hfail]

/-- Witness for claim C9 at a concrete three-task result list. -/
theorem aggregator_fallback_and_footers_witness :
    aggregateResults "Check my build" tsC9 (Except.error "down")
      = buildFallback "Check my build" tsC9
          ++ fallbackFooter (completedCount tsC9) tsC9.length
    ∧ aggregateResults "Check my build" tsC9 (Except.ok "summary")
      = "summary" ++ successPathFooter (failedCount tsC9) tsC9.length :=
  aggregator_fallback_and_footers "Check my build" "down" "summary" tsC9 (by decide)

end AgentFleet
